import Mathlib

/-!
Shallow embedding of `main.go` of protoc-gen-go-grpc-mock.

The Go program builds a `mockgen` `model.Package` from protogen service
descriptors.  The mockgen model types (`model.Package`, `model.Interface`,
`model.Method`, `model.Parameter`, and the `model.Type` variants
`NamedType`, `PointerType`, `PredeclaredType`) are embedded as Lean
structures; Go strings become Lean `String` (or `List Char` where the
path-transform proofs need structural recursion); `nil`-able fields
(`Variadic *Parameter`) become `Option`; Go slices become `List`; the
`append` on `pkg.Interfaces` and `Interface.AddMethod` become list append.
The per-file loop body of `main` is modelled as `fileProducesOutput`.
-/

/-- Embeds mockgen `model.Type`: `NamedType{Package, Type}`,
`PointerType{Type}`, `PredeclaredType` (a string).  A `NamedType` literal
that omits `Package` in Go leaves it as the zero value `""`. -/
inductive GoType where
  | named (pkg : String) (ty : String)
  | pointer (ty : GoType)
  | predeclared (ty : String)
deriving DecidableEq

/-- Embeds mockgen `model.Parameter{Name, Type}`; an omitted `Name` is the
Go zero value `""`. -/
structure Parameter where
  name : String := ""
  type : GoType
deriving DecidableEq

/-- Embeds mockgen `model.Method{Name, In, Out, Variadic}`; the nilable
`Variadic *Parameter` becomes an `Option`, and `In` is spelled `inp`
because `in` is reserved in Lean. -/
structure Method where
  name : String
  inp : List Parameter := []
  out : List Parameter := []
  variadic : Option Parameter := none
deriving DecidableEq

/-- Embeds mockgen `model.Interface{Name, Methods}`. -/
structure Interface where
  name : String
  methods : List Method := []
deriving DecidableEq

/-- Embeds mockgen `model.Interface.AddMethod`, which appends to
`i.Methods`. -/
def Interface.addMethod (i : Interface) (m : Method) : Interface :=
  { i with methods := i.methods ++ [m] }

/-- Embeds mockgen `model.Package{Name, PkgPath, Interfaces}`. -/
structure Package where
  name : String
  pkgPath : String
  interfaces : List Interface := []
deriving DecidableEq

/-- The fields of a `protogen.Method` that `main.go` reads: `m.GoName`,
`m.Parent.GoName`, `m.Input.GoIdent` and `m.Output.GoIdent` (import path
and Go name), and the two streaming flags `m.Desc.IsStreamingClient()` /
`m.Desc.IsStreamingServer()`. -/
structure MethodDesc where
  goName : String
  parentGoName : String
  inputImportPath : String
  inputGoName : String
  outputImportPath : String
  outputGoName : String
  isStreamingClient : Bool
  isStreamingServer : Bool
deriving DecidableEq

/-- The fields of a `protogen.Service` that `main.go` reads: `s.GoName`
and the ordered `s.Methods`. -/
structure ServiceDesc where
  goName : String
  methods : List MethodDesc
deriving DecidableEq

/-- The fields of a `protogen.File` that `main.go` reads: the package
name, import path, the `Generate` flag consulted by `main`, and the
ordered `Services`. -/
structure FileDesc where
  goPackageName : String
  goImportPath : String
  generate : Bool
  services : List ServiceDesc
deriving DecidableEq

/-- Embeds the `methodType` enum of `main.go`. -/
inductive methodType where
  | unary
  | clientStream
  | serverStream
  | bidirectionalStream
deriving DecidableEq

/-- Embeds `getMethodType` of `main.go`, the literal chain of guards. -/
def getMethodType (m : MethodDesc) : methodType :=
  if !m.isStreamingClient && !m.isStreamingServer then
    methodType.unary
  else if !m.isStreamingServer then
    methodType.clientStream
  else if !m.isStreamingClient then
    methodType.serverStream
  else
    methodType.bidirectionalStream

/-- Embeds `fmt.Sprintf("%s_%sClient", m.Parent.GoName, m.GoName)`. -/
def auxClientName (svcName mName : String) : String :=
  svcName ++ "_" ++ mName ++ "Client"

/-- Embeds `fmt.Sprintf("%s_%sServer", m.Parent.GoName, m.GoName)`. -/
def auxServerName (svcName mName : String) : String :=
  svcName ++ "_" ++ mName ++ "Server"

/-- Embeds `baseClientStreamMethods` of `main.go` (the function returns a
fresh but fixed slice; here it is the fixed list). -/
def baseClientStreamMethods : List Method :=
  [ { name := "Header",
      out := [{ type := .named "google.golang.org/grpc/metadata" "MD" },
              { type := .predeclared "error" }] },
    { name := "Trailer",
      out := [{ type := .named "google.golang.org/grpc/metadata" "MD" }] },
    { name := "CloseSend",
      out := [{ type := .predeclared "error" }] },
    { name := "Context",
      out := [{ type := .named "context" "Context" }] },
    { name := "SendMsg",
      inp := [{ name := "arg0", type := .predeclared "interface\x7b\x7d" }],
      out := [{ type := .predeclared "error" }] },
    { name := "RecvMsg",
      inp := [{ name := "arg0", type := .predeclared "interface\x7b\x7d" }],
      out := [{ type := .predeclared "error" }] } ]

/-- Embeds `baseServerStreamMethods` of `main.go`. -/
def baseServerStreamMethods : List Method :=
  [ { name := "SetHeader",
      inp := [{ type := .named "google.golang.org/grpc/metadata" "MD" }],
      out := [{ type := .predeclared "error" }] },
    { name := "SendHeader",
      inp := [{ type := .named "google.golang.org/grpc/metadata" "MD" }],
      out := [{ type := .predeclared "error" }] },
    { name := "SetTrailer",
      inp := [{ type := .named "google.golang.org/grpc/metadata" "MD" }] },
    { name := "Context",
      out := [{ type := .named "context" "Context" }] },
    { name := "SendMsg",
      inp := [{ name := "arg0", type := .predeclared "interface\x7b\x7d" }],
      out := [{ type := .predeclared "error" }] },
    { name := "RecvMsg",
      inp := [{ name := "arg0", type := .predeclared "interface\x7b\x7d" }],
      out := [{ type := .predeclared "error" }] } ]

/-- Embeds `makeUnaryMethods` of `main.go`. -/
def makeUnaryMethods (m : MethodDesc) : Method × Method :=
  ({ name := m.goName,
     inp := [{ name := "ctx", type := .named "context" "Context" },
             { name := "in",
               type := .pointer (.named m.inputImportPath m.inputGoName) }],
     out := [{ type := .pointer (.named m.outputImportPath m.outputGoName) },
             { type := .predeclared "error" }],
     variadic := some { name := "opts",
                        type := .named "google.golang.org/grpc" "CallOption" } },
   { name := m.goName,
     inp := [{ name := "ctx", type := .named "context" "Context" },
             { name := "in",
               type := .pointer (.named m.inputImportPath m.inputGoName) }],
     out := [{ type := .pointer (.named m.outputImportPath m.outputGoName) },
             { type := .predeclared "error" }] })

/-- Embeds `makeServerStreamMethods` of `main.go`. -/
def makeServerStreamMethods (m : MethodDesc) :
    Method × Method × List Interface :=
  let clientIfaceName := auxClientName m.parentGoName m.goName
  let serverIfaceName := auxServerName m.parentGoName m.goName
  let clientMethod : Method :=
    { name := m.goName,
      inp := [{ name := "ctx", type := .named "context" "Context" },
              { name := "in",
                type := .pointer (.named m.inputImportPath m.inputGoName) }],
      out := [{ type := .named "" clientIfaceName },
              { type := .predeclared "error" }],
      variadic := some { name := "opts",
                         type := .named "google.golang.org/grpc" "CallOption" } }
  let serverMethod : Method :=
    { name := m.goName,
      inp := [{ name := "blob",
                type := .pointer (.named m.inputImportPath m.inputGoName) },
              { name := "server", type := .named "" serverIfaceName }],
      out := [{ type := .predeclared "error" }] }
  let clientIface : Interface :=
    Interface.addMethod { name := clientIfaceName, methods := baseClientStreamMethods }
      { name := "Recv",
        out := [{ type := .pointer (.named m.outputImportPath m.outputGoName) },
                { type := .predeclared "error" }] }
  let serverIface : Interface :=
    Interface.addMethod { name := serverIfaceName, methods := baseServerStreamMethods }
      { name := "Send",
        inp := [{ type := .pointer (.named m.outputImportPath m.outputGoName) }],
        out := [{ type := .predeclared "error" }] }
  (clientMethod, serverMethod, [clientIface, serverIface])

/-- Embeds `makeClientStreamMethods` of `main.go`. -/
def makeClientStreamMethods (m : MethodDesc) :
    Method × Method × List Interface :=
  let clientIfaceName := auxClientName m.parentGoName m.goName
  let serverIfaceName := auxServerName m.parentGoName m.goName
  let clientMethod : Method :=
    { name := m.goName,
      inp := [{ name := "ctx", type := .named "context" "Context" }],
      out := [{ type := .named "" clientIfaceName },
              { type := .predeclared "error" }],
      variadic := some { name := "opts",
                         type := .named "google.golang.org/grpc" "CallOption" } }
  let serverMethod : Method :=
    { name := m.goName,
      inp := [{ name := "server", type := .named "" serverIfaceName }],
      out := [{ type := .predeclared "error" }] }
  let clientIface : Interface :=
    Interface.addMethod
      (Interface.addMethod { name := clientIfaceName, methods := baseClientStreamMethods }
        { name := "Send",
          inp := [{ type := .pointer (.named m.inputImportPath m.inputGoName) }],
          out := [{ type := .predeclared "error" }] })
      { name := "CloseAndRecv",
        out := [{ type := .pointer (.named m.outputImportPath m.outputGoName) },
                { type := .predeclared "error" }] }
  let serverIface : Interface :=
    Interface.addMethod
      (Interface.addMethod { name := serverIfaceName, methods := baseServerStreamMethods }
        { name := "SendAndClose",
          inp := [{ type := .pointer (.named m.inputImportPath m.inputGoName) }],
          out := [{ type := .predeclared "error" }] })
      { name := "Recv",
        out := [{ type := .pointer (.named m.outputImportPath m.outputGoName) },
                { type := .predeclared "error" }] }
  (clientMethod, serverMethod, [clientIface, serverIface])

/-- Embeds `makeBidirectionalStreamMethods` of `main.go`. -/
def makeBidirectionalStreamMethods (m : MethodDesc) :
    Method × Method × List Interface :=
  let clientIfaceName := auxClientName m.parentGoName m.goName
  let serverIfaceName := auxServerName m.parentGoName m.goName
  let clientMethod : Method :=
    { name := m.goName,
      inp := [{ name := "ctx", type := .named "context" "Context" }],
      out := [{ type := .named "" clientIfaceName },
              { type := .predeclared "error" }],
      variadic := some { name := "opts",
                         type := .named "google.golang.org/grpc" "CallOption" } }
  let serverMethod : Method :=
    { name := m.goName,
      inp := [{ name := "server", type := .named "" serverIfaceName }],
      out := [{ type := .predeclared "error" }] }
  let clientIface : Interface :=
    Interface.addMethod
      (Interface.addMethod { name := clientIfaceName, methods := baseClientStreamMethods }
        { name := "Send",
          inp := [{ type := .pointer (.named m.inputImportPath m.inputGoName) }],
          out := [{ type := .predeclared "error" }] })
      { name := "Recv",
        out := [{ type := .pointer (.named m.outputImportPath m.outputGoName) },
                { type := .predeclared "error" }] }
  let serverIface : Interface :=
    Interface.addMethod
      (Interface.addMethod { name := serverIfaceName, methods := baseServerStreamMethods }
        { name := "Send",
          inp := [{ type := .pointer (.named m.inputImportPath m.inputGoName) }],
          out := [{ type := .predeclared "error" }] })
      { name := "Recv",
        out := [{ type := .pointer (.named m.outputImportPath m.outputGoName) },
                { type := .predeclared "error" }] }
  (clientMethod, serverMethod, [clientIface, serverIface])

/-- The body of the inner `for _, m := range s.Methods` loop of
`fileToModel`: the accumulator carries the running `pkg.Interfaces`
together with the service's client and server interfaces under
construction; each arm of the `switch` appends any auxiliary interfaces
and adds the client/server methods. -/
def svcMethodStep (acc : List Interface × Interface × Interface)
    (m : MethodDesc) : List Interface × Interface × Interface :=
  match getMethodType m with
  | methodType.unary =>
      let r := makeUnaryMethods m
      (acc.1, acc.2.1.addMethod r.1, acc.2.2.addMethod r.2)
  | methodType.serverStream =>
      let r := makeServerStreamMethods m
      (acc.1 ++ r.2.2, acc.2.1.addMethod r.1, acc.2.2.addMethod r.2.1)
  | methodType.clientStream =>
      let r := makeClientStreamMethods m
      (acc.1 ++ r.2.2, acc.2.1.addMethod r.1, acc.2.2.addMethod r.2.1)
  | methodType.bidirectionalStream =>
      let r := makeBidirectionalStreamMethods m
      (acc.1 ++ r.2.2, acc.2.1.addMethod r.1, acc.2.2.addMethod r.2.1)

/-- The body of the outer `for _, s := range file.Services` loop of
`fileToModel`: fresh `<GoName>Client` / `<GoName>Server` interfaces, the
method loop, then `pkg.Interfaces = append(pkg.Interfaces, clientIface,
serverIface)`. -/
def svcFold (ifs : List Interface) (s : ServiceDesc) : List Interface :=
  let acc := s.methods.foldl svcMethodStep
    (ifs, { name := s.goName ++ "Client" }, { name := s.goName ++ "Server" })
  acc.1 ++ [acc.2.1, acc.2.2]

/-- Embeds `fileToModel` of `main.go`. -/
def fileToModel (file : FileDesc) : Package :=
  { name := file.goPackageName,
    pkgPath := file.goImportPath,
    interfaces := file.services.foldl svcFold [] }

/-- The per-file decision of `main`: a file is rendered and written
exactly when `file.Generate` holds and `len(pkg.Interfaces) == 0` is
false (both `continue` guards in the loop over `plugin.FilesByPath`). -/
def fileProducesOutput (file : FileDesc) : Bool :=
  file.generate && !((fileToModel file).interfaces.length == 0)

/-- The auxiliary interfaces the `switch` of `fileToModel` appends for
one method: none for a unary method, the two-element `ifaces` result of
the matching `make*Methods` function otherwise. -/
def methodAux (m : MethodDesc) : List Interface :=
  match getMethodType m with
  | methodType.unary => []
  | methodType.serverStream => (makeServerStreamMethods m).2.2
  | methodType.clientStream => (makeClientStreamMethods m).2.2
  | methodType.bidirectionalStream => (makeBidirectionalStreamMethods m).2.2

/-- The client-stub method the `switch` of `fileToModel` adds to the
service's Client interface for one method. -/
def methodClientSig (m : MethodDesc) : Method :=
  match getMethodType m with
  | methodType.unary => (makeUnaryMethods m).1
  | methodType.serverStream => (makeServerStreamMethods m).1
  | methodType.clientStream => (makeClientStreamMethods m).1
  | methodType.bidirectionalStream => (makeBidirectionalStreamMethods m).1

/-- The server-handler method the `switch` of `fileToModel` adds to the
service's Server interface for one method. -/
def methodServerSig (m : MethodDesc) : Method :=
  match getMethodType m with
  | methodType.unary => (makeUnaryMethods m).2
  | methodType.serverStream => (makeServerStreamMethods m).2.1
  | methodType.clientStream => (makeClientStreamMethods m).2.1
  | methodType.bidirectionalStream => (makeBidirectionalStreamMethods m).2.1

/-- Embeds Go `strings.Split(input, "/")` over `List Char`: splits around
every `'/'`; the result always has at least one (possibly empty)
segment, exactly as `strings.Split` with a non-empty separator. -/
def splitSlash : List Char → List (List Char)
  | [] => [[]]
  | c :: cs =>
    if c = '/' then
      [] :: splitSlash cs
    else
      match splitSlash cs with
      | [] => [[c]]
      | p :: ps => (c :: p) :: ps

/-- Embeds Go `strings.ReplaceAll(s, "-", "_")`: since the pattern and
replacement are single characters, this is a character map. -/
def replaceDashUnderscore (s : List Char) : List Char :=
  s.map fun c => if c = '-' then '_' else c

/-- Embeds Go `strings.Join(parts, "/")` over `List Char`. -/
def joinSlash : List (List Char) → List Char
  | [] => []
  | [p] => p
  | p :: q :: ps => p ++ '/' :: joinSlash (q :: ps)

/-- The fixed suffix `transformInput` appends to the last path segment. -/
def mockSuffix : String := "_go_grpc_mock.pb.go"

/-- Embeds `transformInput` of `main.go`: split on `"/"`, take the last
segment (`parts[len(parts)-1]`, total because the split is never empty,
modelled by `getLastD`), replace every `-` by `_`, append the fixed
suffix, write it back into the last slot and rejoin.  Go's in-place
`parts[len(parts)-1] = serviceName` is `dropLast ++ [serviceName]` on the
never-empty split. -/
def transformInput (input : String) : String :=
  let parts := splitSlash input.data
  let serviceName := parts.getLastD []
  let serviceName2 := replaceDashUnderscore serviceName ++ mockSuffix.data
  String.mk (joinSlash (parts.dropLast ++ [serviceName2]))

/-- The interfaces one service contributes, in the order the Go loop
emits them: all auxiliary interfaces in method order, then the Client
stub, then the Server stub. -/
def serviceIfaces (s : ServiceDesc) : List Interface :=
  s.methods.flatMap methodAux ++
    [{ name := s.goName ++ "Client", methods := s.methods.map methodClientSig },
     { name := s.goName ++ "Server", methods := s.methods.map methodServerSig }]

/-- A concrete unary method descriptor, used to instantiate theorems. -/
def unaryExample : MethodDesc :=
  { goName := "GetThing", parentGoName := "ThingService",
    inputImportPath := "example.com/pb", inputGoName := "GetThingRequest",
    outputImportPath := "example.com/pb", outputGoName := "GetThingResponse",
    isStreamingClient := false, isStreamingServer := false }

/-- A concrete server-streaming method descriptor. -/
def serverStreamExample : MethodDesc :=
  { goName := "ListThings", parentGoName := "ThingService",
    inputImportPath := "example.com/pb", inputGoName := "ListThingsRequest",
    outputImportPath := "example.com/pb", outputGoName := "ListThingsResponse",
    isStreamingClient := false, isStreamingServer := true }

/-- A concrete client-streaming method descriptor. -/
def clientStreamExample : MethodDesc :=
  { goName := "PutThings", parentGoName := "ThingService",
    inputImportPath := "example.com/pb", inputGoName := "PutThingsRequest",
    outputImportPath := "example.com/pb", outputGoName := "PutThingsResponse",
    isStreamingClient := true, isStreamingServer := false }

/-- A concrete bidirectional-streaming method descriptor. -/
def bidiExample : MethodDesc :=
  { goName := "ChatThings", parentGoName := "ThingService",
    inputImportPath := "example.com/pb", inputGoName := "ChatThingsRequest",
    outputImportPath := "example.com/pb", outputGoName := "ChatThingsResponse",
    isStreamingClient := true, isStreamingServer := true }

/-- A concrete file whose single service declares zero methods. -/
def emptyMethodsFile : FileDesc :=
  { goPackageName := "pb", goImportPath := "example.com/pb", generate := true,
    services := [{ goName := "EmptySvc", methods := [] }] }

/-- A concrete file with zero services. -/
def noServicesFile : FileDesc :=
  { goPackageName := "pb", goImportPath := "example.com/pb", generate := true,
    services := [] }

/-- A concrete file whose synthesized interface names collide: the stub
`A_BClient` of service `A_B` coincides with the auxiliary `A_BClient`
generated for the server-streaming method `B` of service `A`.  Method
names are unique within each service. -/
def collidingFile : FileDesc :=
  { goPackageName := "pb", goImportPath := "example.com/pb", generate := true,
    services :=
      [{ goName := "A_B",
         methods := [{ goName := "X", parentGoName := "A_B",
                       inputImportPath := "p", inputGoName := "I",
                       outputImportPath := "p", outputGoName := "O",
                       isStreamingClient := false, isStreamingServer := false }] },
       { goName := "A",
         methods := [{ goName := "B", parentGoName := "A",
                       inputImportPath := "p", inputGoName := "I",
                       outputImportPath := "p", outputGoName := "O",
                       isStreamingClient := false, isStreamingServer := true }] }] }

/-- One step of the method loop, in closed form: the package interface
list grows by the method's auxiliary interfaces and the client/server
interfaces each gain the method's signature. -/
theorem svcMethodStep_eq (acc : List Interface × Interface × Interface)
    (m : MethodDesc) :
    svcMethodStep acc m =
      (acc.1 ++ methodAux m, acc.2.1.addMethod (methodClientSig m),
       acc.2.2.addMethod (methodServerSig m)) := by
  unfold svcMethodStep methodAux methodClientSig methodServerSig
  cases hm : getMethodType m <;> simp [hm]

/-- Closed form of the whole method loop of `fileToModel`. -/
theorem foldl_svcMethodStep (ms : List MethodDesc) (ifs : List Interface)
    (ci si : Interface) :
    ms.foldl svcMethodStep (ifs, ci, si) =
      (ifs ++ ms.flatMap methodAux,
       { ci with methods := ci.methods ++ ms.map methodClientSig },
       { si with methods := si.methods ++ ms.map methodServerSig }) := by
  induction ms generalizing ifs ci si with
  | nil => simp
  | cons m ms ih =>
      rw [List.foldl_cons, svcMethodStep_eq]
      rw [ih]
      simp [Interface.addMethod]

/-- Closed form of one iteration of the service loop. -/
theorem svcFold_eq (ifs : List Interface) (s : ServiceDesc) :
    svcFold ifs s = ifs ++ serviceIfaces s := by
  unfold svcFold serviceIfaces
  rw [foldl_svcMethodStep]
  simp

/-- Closed form of the service loop of `fileToModel`. -/
theorem foldl_svcFold (ss : List ServiceDesc) (ifs : List Interface) :
    ss.foldl svcFold ifs = ifs ++ ss.flatMap serviceIfaces := by
  induction ss generalizing ifs with
  | nil => simp
  | cons s ss ih =>
      rw [List.foldl_cons, svcFold_eq, ih]
      simp

/-- The interface list of `fileToModel` is the concatenation, service by
service in declaration order, of each service's contribution. -/
theorem fileToModel_interfaces_eq (file : FileDesc) :
    (fileToModel file).interfaces = file.services.flatMap serviceIfaces := by
  unfold fileToModel
  rw [foldl_svcFold]
  simp

/-- Appending the same method-name suffix to distinct method names of the
same service yields distinct auxiliary Client names. -/
theorem auxClientName_inj (svc m1 m2 : String)
    (h : auxClientName svc m1 = auxClientName svc m2) : m1 = m2 := by
  have hd := congrArg String.data h
  simp only [auxClientName, String.data_append] at hd
  exact String.ext ((List.append_right_inj _).mp ((List.append_left_inj _).mp hd))

/-- Distinct method names yield distinct auxiliary Server names. -/
theorem auxServerName_inj (svc m1 m2 : String)
    (h : auxServerName svc m1 = auxServerName svc m2) : m1 = m2 := by
  have hd := congrArg String.data h
  simp only [auxServerName, String.data_append] at hd
  exact String.ext ((List.append_right_inj _).mp ((List.append_left_inj _).mp hd))

/-- An auxiliary Client name never equals an auxiliary Server name, for
any service and method names: the two fixed suffixes differ. -/
theorem auxClientName_ne_auxServerName (svc1 m1 svc2 m2 : String) :
    auxClientName svc1 m1 ≠ auxServerName svc2 m2 := by
  intro h
  have hd := congrArg String.data h
  simp only [auxClientName, auxServerName, String.data_append] at hd
  have hlen : ("Client".data).length = ("Server".data).length := by decide
  have := (List.append_inj' hd hlen).2
  exact absurd this (by decide)

/-- Go `strings.Split` with a non-empty separator never returns an empty
slice; neither does its embedding. -/
theorem splitSlash_ne_nil (l : List Char) : splitSlash l ≠ [] := by
  cases l with
  | nil => simp [splitSlash]
  | cons c cs =>
      unfold splitSlash
      by_cases h : c = '/'
      · simp [h]
      · simp only [h, if_false]
        cases splitSlash cs <;> simp

/-- Splitting a slash-free string yields the single segment itself. -/
theorem splitSlash_no_slash (l : List Char) (h : '/' ∉ l) :
    splitSlash l = [l] := by
  induction l with
  | nil => rfl
  | cons c cs ih =>
      simp only [List.mem_cons, not_or] at h
      simp only [splitSlash]
      rw [if_neg (fun hc => h.1 hc.symm), ih h.2]

/-- Splitting a string of the form `x ++ "/" ++ r` with slash-free `x`
peels off `x` as the first segment. -/
theorem splitSlash_append (x r : List Char) (h : '/' ∉ x) :
    splitSlash (x ++ '/' :: r) = x :: splitSlash r := by
  induction x with
  | nil => simp [splitSlash]
  | cons c cs ih =>
      simp only [List.mem_cons, not_or] at h
      simp only [List.cons_append]
      simp only [splitSlash]
      rw [if_neg (fun hc => h.1 hc.symm), ih h.2]

/-- Splitting is a left inverse of joining on non-empty lists of
slash-free segments. -/
theorem splitSlash_joinSlash (segs : List (List Char)) (hne : segs ≠ [])
    (h : ∀ s ∈ segs, '/' ∉ s) : splitSlash (joinSlash segs) = segs := by
  induction segs with
  | nil => cases hne rfl
  | cons x xs ih =>
      cases xs with
      | nil => simpa [joinSlash] using splitSlash_no_slash x (h x (by simp))
      | cons y ys =>
          rw [joinSlash, splitSlash_append x _ (h x (by simp)),
            ih (by simp) (fun s hs => h s (by simp [hs]))]

/-- The default value of `getLastD` is irrelevant on a list ending in an
explicit last element. -/
theorem getLastD_append_single {α : Type} (ds : List α) (b d : α) :
    (ds ++ [b]).getLastD d = b := by
  induction ds generalizing d with
  | nil => rfl
  | cons x xs ih => rw [List.cons_append, List.getLastD_cons]; exact ih x

/-- Any non-empty list is its `dropLast` followed by its last element. -/
theorem eq_dropLast_append_getLastD {α : Type} :
    ∀ (l : List α) (d : α), l ≠ [] → l = l.dropLast ++ [l.getLastD d]
  | [x], _, _ => rfl
  | x :: y :: ys, d, _ => by
      have h := eq_dropLast_append_getLastD (y :: ys) x (by simp)
      rw [List.getLastD_cons, List.dropLast_cons_of_ne_nil (by simp),
        List.cons_append, ← h]

/-- The dash-replacement map introduces no dash. -/
theorem replaceDashUnderscore_no_dash (b : List Char) :
    '-' ∉ replaceDashUnderscore b := by
  intro hmem
  simp only [replaceDashUnderscore, List.mem_map] at hmem
  obtain ⟨c, _, hceq⟩ := hmem
  by_cases h : c = '-'
  · rw [if_pos h] at hceq
    exact absurd hceq (by decide)
  · rw [if_neg h] at hceq
    exact h hceq

/-- The dash-replacement map fixes dash-free segments. -/
theorem replaceDashUnderscore_id (b : List Char) (h : '-' ∉ b) :
    replaceDashUnderscore b = b := by
  induction b with
  | nil => rfl
  | cons c cs ih =>
      simp only [List.mem_cons, not_or] at h
      simp only [replaceDashUnderscore, List.map_cons] at ih ⊢
      rw [if_neg (fun hc => h.1 hc.symm), ih h.2]

/-- Closed form of `transformInput` on a path presented as directory
segments plus a base segment, all slash-free. -/
theorem transformInput_closed (ds : List (List Char)) (b : List Char)
    (hds : ∀ d ∈ ds, '/' ∉ d) (hb : '/' ∉ b) :
    transformInput (String.mk (joinSlash (ds ++ [b]))) =
      String.mk (joinSlash
        (ds ++ [replaceDashUnderscore b ++ mockSuffix.data])) := by
  have hall : ∀ s ∈ ds ++ [b], '/' ∉ s := by
    intro s hs
    rcases List.mem_append.mp hs with h1 | h1
    · exact hds s h1
    · simp only [List.mem_singleton] at h1
      exact h1 ▸ hb
  have hsplit : splitSlash (String.mk (joinSlash (ds ++ [b]))).data
      = ds ++ [b] :=
    splitSlash_joinSlash _ (by simp) hall
  unfold transformInput
  rw [hsplit]
  simp only [List.dropLast_concat, getLastD_append_single]

/-- Pointwise-equal functions give equal flatMaps. -/
theorem flatMap_congr_mem {α β : Type} (l : List α) (f g : α → List β)
    (h : ∀ a ∈ l, f a = g a) : l.flatMap f = l.flatMap g := by
  induction l with
  | nil => rfl
  | cons x xs ih =>
      simp only [List.flatMap_cons]
      rw [h x (by simp), ih (fun a ha => h a (by simp [ha]))]

/-- C1: `getMethodType` follows the exact truth table on the two
streaming flags: (false, false) yields Unary, (true, false)
ClientStreaming, (false, true) ServerStreaming, (true, true)
Bidirectional; it is total over all four flag combinations with no error
case. -/
theorem getMethodType_truth_table (m : MethodDesc) :
    getMethodType m =
      match m.isStreamingClient, m.isStreamingServer with
      | false, false => methodType.unary
      | true, false => methodType.clientStream
      | false, true => methodType.serverStream
      | true, true => methodType.bidirectionalStream := by
  obtain ⟨_, _, _, _, _, _, sc, ss⟩ := m
  cases sc <;> cases ss <;> rfl

/-- C3: the package-level interface list built by `fileToModel` is,
service by service in declaration order: for each method in declaration
order the auxiliary interfaces that method produces (so they precede the
service's own stubs), then the service's Client stub, then its Server
stub; and the stub interfaces list one signature per method in method
declaration order. -/
theorem fileToModel_ordering (file : FileDesc) :
    (fileToModel file).interfaces =
      file.services.flatMap (fun s =>
        s.methods.flatMap methodAux ++
          [{ name := s.goName ++ "Client",
             methods := s.methods.map methodClientSig },
           { name := s.goName ++ "Server",
             methods := s.methods.map methodServerSig }]) := by
  rw [fileToModel_interfaces_eq]
  rfl

/-- C4: a method with both streaming flags false is classified Unary,
produces no auxiliary interfaces, and `makeUnaryMethods` yields exactly
the two signatures: client `(ctx Context, in *In, opts ...CallOption) ->
(*Out, error)` and server `(ctx Context, in *In) -> (*Out, error)`. -/
theorem unary_method_spec (m : MethodDesc)
    (hc : m.isStreamingClient = false) (hs : m.isStreamingServer = false) :
    getMethodType m = methodType.unary ∧
    methodAux m = [] ∧
    makeUnaryMethods m =
      ({ name := m.goName,
         inp := [{ name := "ctx", type := .named "context" "Context" },
                 { name := "in",
                   type := .pointer (.named m.inputImportPath m.inputGoName) }],
         out := [{ type := .pointer (.named m.outputImportPath m.outputGoName) },
                 { type := .predeclared "error" }],
         variadic := some { name := "opts",
                            type := .named "google.golang.org/grpc" "CallOption" } },
       { name := m.goName,
         inp := [{ name := "ctx", type := .named "context" "Context" },
                 { name := "in",
                   type := .pointer (.named m.inputImportPath m.inputGoName) }],
         out := [{ type := .pointer (.named m.outputImportPath m.outputGoName) },
                 { type := .predeclared "error" }] }) := by
  have ht : getMethodType m = methodType.unary := by
    unfold getMethodType
    rw [hc, hs]
    rfl
  refine ⟨ht, ?_, rfl⟩
  unfold methodAux
  rw [ht]

/-- Witness for C4 at the concrete `unaryExample`. -/
theorem unary_method_spec_witness :
    getMethodType unaryExample = methodType.unary ∧
    methodAux unaryExample = [] ∧
    makeUnaryMethods unaryExample =
      ({ name := "GetThing",
         inp := [{ name := "ctx", type := .named "context" "Context" },
                 { name := "in",
                   type := .pointer (.named "example.com/pb" "GetThingRequest") }],
         out := [{ type := .pointer (.named "example.com/pb" "GetThingResponse") },
                 { type := .predeclared "error" }],
         variadic := some { name := "opts",
                            type := .named "google.golang.org/grpc" "CallOption" } },
       { name := "GetThing",
         inp := [{ name := "ctx", type := .named "context" "Context" },
                 { name := "in",
                   type := .pointer (.named "example.com/pb" "GetThingRequest") }],
         out := [{ type := .pointer (.named "example.com/pb" "GetThingResponse") },
                 { type := .predeclared "error" }] }) :=
  unary_method_spec unaryExample rfl rfl

/-- C5: a method with server-streaming only is classified ServerStreaming
and produces exactly two auxiliary interfaces, named
`<Service>_<Method>Client` and `<Service>_<Method>Server`: the client
handle is the base client-handle method list plus `Recv() -> (*Out,
error)`, the server handle is the base server-handle method list plus
`Send(*Out) -> error`; the client stub is `(ctx Context, in *In, opts
...CallOption) -> (ClientHandle, error)` and the server handler is
`(blob *In, server ServerHandle) -> error`. -/
theorem serverStream_method_spec (m : MethodDesc)
    (hc : m.isStreamingClient = false) (hs : m.isStreamingServer = true) :
    getMethodType m = methodType.serverStream ∧
    makeServerStreamMethods m =
      ({ name := m.goName,
         inp := [{ name := "ctx", type := .named "context" "Context" },
                 { name := "in",
                   type := .pointer (.named m.inputImportPath m.inputGoName) }],
         out := [{ type := .named "" (auxClientName m.parentGoName m.goName) },
                 { type := .predeclared "error" }],
         variadic := some { name := "opts",
                            type := .named "google.golang.org/grpc" "CallOption" } },
       { name := m.goName,
         inp := [{ name := "blob",
                   type := .pointer (.named m.inputImportPath m.inputGoName) },
                 { name := "server",
                   type := .named "" (auxServerName m.parentGoName m.goName) }],
         out := [{ type := .predeclared "error" }] },
       [{ name := auxClientName m.parentGoName m.goName,
          methods := baseClientStreamMethods ++
            [{ name := "Recv",
               out := [{ type := .pointer (.named m.outputImportPath m.outputGoName) },
                       { type := .predeclared "error" }] }] },
        { name := auxServerName m.parentGoName m.goName,
          methods := baseServerStreamMethods ++
            [{ name := "Send",
               inp := [{ type := .pointer (.named m.outputImportPath m.outputGoName) }],
               out := [{ type := .predeclared "error" }] }] }]) ∧
    methodAux m = (makeServerStreamMethods m).2.2 := by
  have ht : getMethodType m = methodType.serverStream := by
    unfold getMethodType
    rw [hc, hs]
    rfl
  refine ⟨ht, rfl, ?_⟩
  unfold methodAux
  rw [ht]

/-- Witness for C5 at the concrete `serverStreamExample`. -/
theorem serverStream_method_spec_witness :
    getMethodType serverStreamExample = methodType.serverStream ∧
    makeServerStreamMethods serverStreamExample =
      ({ name := "ListThings",
         inp := [{ name := "ctx", type := .named "context" "Context" },
                 { name := "in",
                   type := .pointer (.named "example.com/pb" "ListThingsRequest") }],
         out := [{ type := .named "" "ThingService_ListThingsClient" },
                 { type := .predeclared "error" }],
         variadic := some { name := "opts",
                            type := .named "google.golang.org/grpc" "CallOption" } },
       { name := "ListThings",
         inp := [{ name := "blob",
                   type := .pointer (.named "example.com/pb" "ListThingsRequest") },
                 { name := "server",
                   type := .named "" "ThingService_ListThingsServer" }],
         out := [{ type := .predeclared "error" }] },
       [{ name := "ThingService_ListThingsClient",
          methods := baseClientStreamMethods ++
            [{ name := "Recv",
               out := [{ type := .pointer (.named "example.com/pb" "ListThingsResponse") },
                       { type := .predeclared "error" }] }] },
        { name := "ThingService_ListThingsServer",
          methods := baseServerStreamMethods ++
            [{ name := "Send",
               inp := [{ type := .pointer (.named "example.com/pb" "ListThingsResponse") }],
               out := [{ type := .predeclared "error" }] }] }]) ∧
    methodAux serverStreamExample =
      (makeServerStreamMethods serverStreamExample).2.2 := by
  have h := serverStream_method_spec serverStreamExample rfl rfl
  exact ⟨h.1, by rw [h.2.1]; decide, h.2.2⟩

/-- C6: a method with client-streaming only is classified ClientStreaming
and produces exactly two auxiliary interfaces: the client handle is the
base client-handle method list plus `Send(*In) -> error` and
`CloseAndRecv() -> (*Out, error)`; the server handle is the base
server-handle method list plus `SendAndClose(*In) -> error` and
`Recv() -> (*Out, error)`; the client stub is `(ctx Context, opts
...CallOption) -> (ClientHandle, error)` and the server handler is
`(server ServerHandle) -> error`. -/
theorem clientStream_method_spec (m : MethodDesc)
    (hc : m.isStreamingClient = true) (hs : m.isStreamingServer = false) :
    getMethodType m = methodType.clientStream ∧
    makeClientStreamMethods m =
      ({ name := m.goName,
         inp := [{ name := "ctx", type := .named "context" "Context" }],
         out := [{ type := .named "" (auxClientName m.parentGoName m.goName) },
                 { type := .predeclared "error" }],
         variadic := some { name := "opts",
                            type := .named "google.golang.org/grpc" "CallOption" } },
       { name := m.goName,
         inp := [{ name := "server",
                   type := .named "" (auxServerName m.parentGoName m.goName) }],
         out := [{ type := .predeclared "error" }] },
       [{ name := auxClientName m.parentGoName m.goName,
          methods := baseClientStreamMethods ++
            [{ name := "Send",
               inp := [{ type := .pointer (.named m.inputImportPath m.inputGoName) }],
               out := [{ type := .predeclared "error" }] },
             { name := "CloseAndRecv",
               out := [{ type := .pointer (.named m.outputImportPath m.outputGoName) },
                       { type := .predeclared "error" }] }] },
        { name := auxServerName m.parentGoName m.goName,
          methods := baseServerStreamMethods ++
            [{ name := "SendAndClose",
               inp := [{ type := .pointer (.named m.inputImportPath m.inputGoName) }],
               out := [{ type := .predeclared "error" }] },
             { name := "Recv",
               out := [{ type := .pointer (.named m.outputImportPath m.outputGoName) },
                       { type := .predeclared "error" }] }] }]) ∧
    methodAux m = (makeClientStreamMethods m).2.2 := by
  have ht : getMethodType m = methodType.clientStream := by
    unfold getMethodType
    rw [hc, hs]
    rfl
  refine ⟨ht, ?_, ?_⟩
  · show makeClientStreamMethods m = _
    unfold makeClientStreamMethods Interface.addMethod
    simp
  · unfold methodAux
    rw [ht]

/-- Witness for C6 at the concrete `clientStreamExample`. -/
theorem clientStream_method_spec_witness :
    getMethodType clientStreamExample = methodType.clientStream ∧
    makeClientStreamMethods clientStreamExample =
      ({ name := "PutThings",
         inp := [{ name := "ctx", type := .named "context" "Context" }],
         out := [{ type := .named "" "ThingService_PutThingsClient" },
                 { type := .predeclared "error" }],
         variadic := some { name := "opts",
                            type := .named "google.golang.org/grpc" "CallOption" } },
       { name := "PutThings",
         inp := [{ name := "server",
                   type := .named "" "ThingService_PutThingsServer" }],
         out := [{ type := .predeclared "error" }] },
       [{ name := "ThingService_PutThingsClient",
          methods := baseClientStreamMethods ++
            [{ name := "Send",
               inp := [{ type := .pointer (.named "example.com/pb" "PutThingsRequest") }],
               out := [{ type := .predeclared "error" }] },
             { name := "CloseAndRecv",
               out := [{ type := .pointer (.named "example.com/pb" "PutThingsResponse") },
                       { type := .predeclared "error" }] }] },
        { name := "ThingService_PutThingsServer",
          methods := baseServerStreamMethods ++
            [{ name := "SendAndClose",
               inp := [{ type := .pointer (.named "example.com/pb" "PutThingsRequest") }],
               out := [{ type := .predeclared "error" }] },
             { name := "Recv",
               out := [{ type := .pointer (.named "example.com/pb" "PutThingsResponse") },
                       { type := .predeclared "error" }] }] }]) ∧
    methodAux clientStreamExample =
      (makeClientStreamMethods clientStreamExample).2.2 := by
  have h := clientStream_method_spec clientStreamExample rfl rfl
  exact ⟨h.1, by rw [h.2.1]; decide, h.2.2⟩

/-- C7: a method with both streaming flags true is classified
Bidirectional and produces exactly two auxiliary interfaces whose extra
methods are symmetric: both the client handle and the server handle are
their base method list plus `Send(*In) -> error` and `Recv() -> (*Out,
error)`; the client stub is `(ctx Context, opts ...CallOption) ->
(ClientHandle, error)` and the server handler is `(server ServerHandle)
-> error`. -/
theorem bidirectional_method_spec (m : MethodDesc)
    (hc : m.isStreamingClient = true) (hs : m.isStreamingServer = true) :
    getMethodType m = methodType.bidirectionalStream ∧
    makeBidirectionalStreamMethods m =
      ({ name := m.goName,
         inp := [{ name := "ctx", type := .named "context" "Context" }],
         out := [{ type := .named "" (auxClientName m.parentGoName m.goName) },
                 { type := .predeclared "error" }],
         variadic := some { name := "opts",
                            type := .named "google.golang.org/grpc" "CallOption" } },
       { name := m.goName,
         inp := [{ name := "server",
                   type := .named "" (auxServerName m.parentGoName m.goName) }],
         out := [{ type := .predeclared "error" }] },
       [{ name := auxClientName m.parentGoName m.goName,
          methods := baseClientStreamMethods ++
            [{ name := "Send",
               inp := [{ type := .pointer (.named m.inputImportPath m.inputGoName) }],
               out := [{ type := .predeclared "error" }] },
             { name := "Recv",
               out := [{ type := .pointer (.named m.outputImportPath m.outputGoName) },
                       { type := .predeclared "error" }] }] },
        { name := auxServerName m.parentGoName m.goName,
          methods := baseServerStreamMethods ++
            [{ name := "Send",
               inp := [{ type := .pointer (.named m.inputImportPath m.inputGoName) }],
               out := [{ type := .predeclared "error" }] },
             { name := "Recv",
               out := [{ type := .pointer (.named m.outputImportPath m.outputGoName) },
                       { type := .predeclared "error" }] }] }]) ∧
    methodAux m = (makeBidirectionalStreamMethods m).2.2 := by
  have ht : getMethodType m = methodType.bidirectionalStream := by
    unfold getMethodType
    rw [hc, hs]
    rfl
  refine ⟨ht, ?_, ?_⟩
  · show makeBidirectionalStreamMethods m = _
    unfold makeBidirectionalStreamMethods Interface.addMethod
    simp
  · unfold methodAux
    rw [ht]

/-- Witness for C7 at the concrete `bidiExample`. -/
theorem bidirectional_method_spec_witness :
    getMethodType bidiExample = methodType.bidirectionalStream ∧
    makeBidirectionalStreamMethods bidiExample =
      ({ name := "ChatThings",
         inp := [{ name := "ctx", type := .named "context" "Context" }],
         out := [{ type := .named "" "ThingService_ChatThingsClient" },
                 { type := .predeclared "error" }],
         variadic := some { name := "opts",
                            type := .named "google.golang.org/grpc" "CallOption" } },
       { name := "ChatThings",
         inp := [{ name := "server",
                   type := .named "" "ThingService_ChatThingsServer" }],
         out := [{ type := .predeclared "error" }] },
       [{ name := "ThingService_ChatThingsClient",
          methods := baseClientStreamMethods ++
            [{ name := "Send",
               inp := [{ type := .pointer (.named "example.com/pb" "ChatThingsRequest") }],
               out := [{ type := .predeclared "error" }] },
             { name := "Recv",
               out := [{ type := .pointer (.named "example.com/pb" "ChatThingsResponse") },
                       { type := .predeclared "error" }] }] },
        { name := "ThingService_ChatThingsServer",
          methods := baseServerStreamMethods ++
            [{ name := "Send",
               inp := [{ type := .pointer (.named "example.com/pb" "ChatThingsRequest") }],
               out := [{ type := .predeclared "error" }] },
             { name := "Recv",
               out := [{ type := .pointer (.named "example.com/pb" "ChatThingsResponse") },
                       { type := .predeclared "error" }] }] }]) ∧
    methodAux bidiExample =
      (makeBidirectionalStreamMethods bidiExample).2.2 := by
  have h := bidirectional_method_spec bidiExample rfl rfl
  exact ⟨h.1, by rw [h.2.1]; decide, h.2.2⟩

/-- C2 counterexample: `emptyMethodsFile` declares one service with zero
methods, yet `fileToModel` yields two interfaces (the empty `EmptySvcClient`
and `EmptySvcServer` stubs) and the `main` loop does not skip the file,
refuting the claim that every file whose services all have zero methods
yields a Package with zero interfaces and produces no output. -/
theorem emptyMethods_not_skipped :
    (∀ s ∈ emptyMethodsFile.services, s.methods = []) ∧
    (fileToModel emptyMethodsFile).interfaces ≠ [] ∧
    (fileToModel emptyMethodsFile).interfaces.length = 2 ∧
    fileProducesOutput emptyMethodsFile = true := by
  decide

/-- C2 amended: a file declaring zero services yields a Package with
zero interfaces and is skipped (no renderer invocation, no output file);
but a file whose services all have zero methods yields an empty Client
and Server stub interface per service, so it is rendered whenever it is
marked for generation and declares at least one service. -/
theorem fileToModel_empty_spec (file : FileDesc) :
    (file.services = [] →
      (fileToModel file).interfaces = [] ∧
      fileProducesOutput file = false) ∧
    ((∀ s ∈ file.services, s.methods = []) →
      (fileToModel file).interfaces =
        file.services.flatMap (fun s =>
          [{ name := s.goName ++ "Client", methods := [] },
           { name := s.goName ++ "Server", methods := [] }]) ∧
      fileProducesOutput file = (file.generate && !file.services.isEmpty)) := by
  constructor
  · intro h
    have hif : (fileToModel file).interfaces = [] := by
      rw [fileToModel_interfaces_eq, h]
      rfl
    refine ⟨hif, ?_⟩
    simp [fileProducesOutput, hif]
  · intro h
    have hif : (fileToModel file).interfaces =
        file.services.flatMap (fun s =>
          [{ name := s.goName ++ "Client", methods := [] },
           { name := s.goName ++ "Server", methods := [] }]) := by
      rw [fileToModel_interfaces_eq]
      refine flatMap_congr_mem _ _ _ (fun s hs => ?_)
      unfold serviceIfaces
      rw [h s hs]
      rfl
    refine ⟨hif, ?_⟩
    cases hsv : file.services with
    | nil => simp [fileProducesOutput, hif, hsv]
    | cons s ss => simp [fileProducesOutput, hif, hsv]

/-- Witness for C2 amended: the zero-services branch at `noServicesFile`
and the zero-methods branch at `emptyMethodsFile`. -/
theorem fileToModel_empty_spec_witness :
    ((fileToModel noServicesFile).interfaces = [] ∧
      fileProducesOutput noServicesFile = false) ∧
    ((fileToModel emptyMethodsFile).interfaces =
        emptyMethodsFile.services.flatMap (fun s =>
          [{ name := s.goName ++ "Client", methods := [] },
           { name := s.goName ++ "Server", methods := [] }]) ∧
      fileProducesOutput emptyMethodsFile =
        (emptyMethodsFile.generate && !emptyMethodsFile.services.isEmpty)) :=
  ⟨(fileToModel_empty_spec noServicesFile).1 rfl,
   (fileToModel_empty_spec emptyMethodsFile).2 (by decide)⟩

/-- C9 counterexample: in `collidingFile` each service has unique method
names and each method's parent name is its service's name, yet the
assembled Package lists the interface name `A_BClient` twice (the Client
stub of service `A_B` and the auxiliary client handle of streaming
method `B` of service `A`), so interface names are not unique within
every Package. -/
theorem collidingFile_duplicate_names :
    (∀ s ∈ collidingFile.services,
      (s.methods.map MethodDesc.goName).Nodup) ∧
    (∀ s ∈ collidingFile.services, ∀ m ∈ s.methods,
      m.parentGoName = s.goName) ∧
    ¬ (((fileToModel collidingFile).interfaces.map Interface.name).Nodup) := by
  decide

/-- C9 amended: within one service the synthesized auxiliary interface
names never collide — for distinct method names, `S_M1Client` differs
from `S_M2Client` and `S_M1Server` from `S_M2Server`, and a Client
handle name never equals a Server handle name; package-wide uniqueness
against other services' stub names is however not guaranteed. -/
theorem auxNames_distinct (svc m1 m2 : String) (h : m1 ≠ m2) :
    auxClientName svc m1 ≠ auxClientName svc m2 ∧
    auxServerName svc m1 ≠ auxServerName svc m2 ∧
    auxClientName svc m1 ≠ auxServerName svc m2 ∧
    auxServerName svc m1 ≠ auxClientName svc m2 :=
  ⟨fun he => h (auxClientName_inj svc m1 m2 he),
   fun he => h (auxServerName_inj svc m1 m2 he),
   auxClientName_ne_auxServerName svc m1 svc m2,
   fun he => auxClientName_ne_auxServerName svc m2 svc m1 he.symm⟩

/-- Witness for C9 amended at concrete service and method names. -/
theorem auxNames_distinct_witness :
    auxClientName "ThingService" "GetThing" ≠
      auxClientName "ThingService" "ListThings" ∧
    auxServerName "ThingService" "GetThing" ≠
      auxServerName "ThingService" "ListThings" ∧
    auxClientName "ThingService" "GetThing" ≠
      auxServerName "ThingService" "ListThings" ∧
    auxServerName "ThingService" "GetThing" ≠
      auxClientName "ThingService" "ListThings" :=
  auxNames_distinct "ThingService" "GetThing" "ListThings" (by decide)

/-- C8: on a directory-qualified path given as slash-free directory
segments `ds` and a slash-free base segment `b`, `transformInput`
replaces every hyphen of the last segment with an underscore, appends
the fixed suffix `_go_grpc_mock.pb.go`, and rejoins with the directory
segments unchanged; the replacement introduces no hyphen (so multiple
hyphens all convert) and fixes hyphen-free segments. -/
theorem transformInput_spec (ds : List (List Char)) (b : List Char)
    (hds : ∀ d ∈ ds, '/' ∉ d) (hb : '/' ∉ b) :
    transformInput (String.mk (joinSlash (ds ++ [b]))) =
      String.mk (joinSlash
        (ds ++ [replaceDashUnderscore b ++ mockSuffix.data])) ∧
    '-' ∉ replaceDashUnderscore b ∧
    ('-' ∉ b → replaceDashUnderscore b = b) :=
  ⟨transformInput_closed ds b hds hb,
   replaceDashUnderscore_no_dash b,
   replaceDashUnderscore_id b⟩

/-- Witness for C8: the spec's example `a/b/c-service` maps to
`a/b/c_service_go_grpc_mock.pb.go`. -/
theorem transformInput_spec_witness :
    transformInput "a/b/c-service" = "a/b/c_service_go_grpc_mock.pb.go" ∧
    transformInput "a/b/cservice" = "a/b/cservice_go_grpc_mock.pb.go" ∧
    transformInput "a/b/c-my-service" = "a/b/c_my_service_go_grpc_mock.pb.go" := by
  have h1 := (transformInput_spec [['a'], ['b']] ("c-service".data)
    (by decide) (by decide)).1
  have h2 := (transformInput_spec [['a'], ['b']] ("cservice".data)
    (by decide) (by decide)).1
  have h3 := (transformInput_spec [['a'], ['b']] ("c-my-service".data)
    (by decide) (by decide)).1
  refine ⟨?_, ?_, ?_⟩
  · exact h1
  · exact h2
  · exact h3

/-- C10: `transformInput` is total over every input string: splitting
always yields at least one (possibly empty) segment, and the result is
always the rejoined directory prefix with the (possibly empty) last
segment hyphen-replaced and suffixed — no error branch exists. -/
theorem transformInput_total (input : String) :
    splitSlash input.data ≠ [] ∧
    ∃ ds b, splitSlash input.data = ds ++ [b] ∧
      transformInput input =
        String.mk (joinSlash
          (ds ++ [replaceDashUnderscore b ++ mockSuffix.data])) := by
  have hne := splitSlash_ne_nil input.data
  refine ⟨hne, (splitSlash input.data).dropLast,
    (splitSlash input.data).getLastD [], ?_, rfl⟩
  exact eq_dropLast_append_getLastD _ [] hne
